import Mathlib

/-!
# Verification of the GNRC TCP user API (`sys/net/gnrc/transport_layer/tcp/gnrc_tcp.c`)

This file gives a shallow embedding of the user-facing TCP API functions of the
repository and proves the frozen claims about them.

Modelling conventions:

* The per-connection control block `gnrc_tcp_tcb_t` is the structure `Tcb`;
  the status bitmask is unfolded into individual booleans.
* The TCP finite-state machine `_gnrc_tcp_fsm` lives in `gnrc_tcp_fsm.c`,
  which is not part of the sources under verification.  Events whose effect is
  irrelevant to a claim are abstracted into an oracle (`FsmOracle`); the two
  events whose effect a claim depends on (`FSM_EVENT_CLEAR_RETRANSMIT` and
  `FSM_EVENT_CALL_RECV`) are modelled from the specification and carry a doc
  comment saying so.
* The API functions block on a per-call mailbox (`mbox_get`).  Concurrency is
  modelled by giving each call a list of inputs `(Msg × (Tcb → Tcb))`: the
  message delivered by `mbox_get` together with the net mutation the protocol
  thread performed on the shared TCB while the caller was blocked.  A function
  returns `none` when the input list is exhausted while the code would still
  block.
* C `int` error codes are `Int` constants; the exact numeric values are the
  usual errno numbers and are immaterial, only their distinctness matters.
* `uint32_t` arithmetic is `Nat` with an explicit `% 2 ^ 32`.
-/

set_option autoImplicit false

/-! ## Error numbers (errno values, negated at return sites as in the C code) -/

def EAGAIN : Int := 11
def ENOMEM : Int := 12
def EFAULT : Int := 14
def EINVAL : Int := 22
def EBADMSG : Int := 74
def ENOENT : Int := 2
def EAFNOSUPPORT : Int := 97
def EADDRINUSE : Int := 98
def ECONNABORTED : Int := 103
def ECONNRESET : Int := 104
def EISCONN : Int := 106
def ENOTCONN : Int := 107
def ETIMEDOUT : Int := 110
def ECONNREFUSED : Int := 111

/-- The `AF_INET6` address family tag (value immaterial, must differ from other
families such as `AF_UNSPEC = 0`). -/
def AF_INET6 : Int := 28

/-! ## FSM states (`_gnrc_tcp_fsm_state_t`) -/

inductive FsmState where
  | CLOSED
  | LISTEN
  | SYN_SENT
  | SYN_RCVD
  | ESTABLISHED
  | CLOSE_WAIT
  | LAST_ACK
  | FIN_WAIT_1
  | FIN_WAIT_2
  | CLOSING
  | TIME_WAIT
deriving DecidableEq, Repr

/-! ## Connection control block (`gnrc_tcp_tcb_t`), fields the API reads or
writes.  The `status` bitmask is split into booleans; `pkt_retransmit` is the
presence of the single retransmission-queue entry, `retransmit_timer_armed`
the associated timer. -/

structure Tcb where
  state : FsmState
  address_family : Int
  local_addr : List Nat
  peer_addr : List Nat
  ll_iface : Nat
  local_port : Nat
  peer_port : Nat
  statusPassive : Bool
  statusAllowAnyAddr : Bool
  snd_wnd : Nat
  rto : Nat
  rcvbuf_avail : Nat
  pkt_retransmit : Bool
  retransmit_timer_armed : Bool
deriving DecidableEq, Repr

/-- Modelled from the spec: effect of `_gnrc_tcp_fsm(tcb, FSM_EVENT_CLEAR_RETRANSMIT, ...)`.
The FSM implementation (`gnrc_tcp_fsm.c`) is not among the sources; spec §4.4:
"On `CLEAR_RETRANSMIT` event: drop the entry and cancel the timer" — the FSM
state is not touched. -/
def fsm_clear_retransmit (tcb : Tcb) : Tcb :=
  { tcb with pkt_retransmit := false, retransmit_timer_armed := false }

/-- Modelled from the spec: effect of `_gnrc_tcp_fsm(tcb, FSM_EVENT_CALL_RECV, _, buf, max_len)`.
The FSM implementation (`gnrc_tcp_fsm.c`) is not among the sources; spec §3:
"bytes queued for the user equal `fill_off − read_off`" and the recv call
copies from the receive buffer into the user buffer and returns the number of
bytes copied. -/
def fsm_call_recv (tcb : Tcb) (max_len : Nat) : Tcb × Nat :=
  let n := min tcb.rcvbuf_avail max_len
  ({ tcb with rcvbuf_avail := tcb.rcvbuf_avail - n }, n)

/-- Abstract interface to the remaining FSM events (`gnrc_tcp_fsm.c` is not
among the sources; no claim depends on their concrete effect, so they are
universally quantified oracle functions). -/
structure FsmOracle where
  callOpen : Tcb → Tcb × Int
  callSend : Tcb → Nat → Tcb × Int
  sendProbe : Tcb → Tcb
  timeoutConnection : Tcb → Tcb
  callClose : Tcb → Tcb

/-! ## Mailbox messages delivered to a blocked API call -/

inductive Msg where
  | NOTIFY_USER
  | CONNECTION_TIMEOUT
  | USER_SPEC_TIMEOUT
  | PROBE_TIMEOUT
deriving DecidableEq, Repr

/-- One blocked-wait input: the message `mbox_get` returns, together with the
net mutation the protocol thread performed on the shared TCB while the user
thread was blocked on the mailbox. -/
def WaitInput : Type := Msg × (Tcb → Tcb)

/-! ## `gnrc_tcp_recv` -/

/-- Body of the processing loop of `gnrc_tcp_recv` (`while (ret == 0) { ... }`),
recursing over the wait inputs.  Mirrors the C loop: check for a reset,
try to read data, leave on `CLOSE_WAIT`, otherwise block on the mailbox. -/
def gnrc_tcp_recv_loop (fsm : FsmOracle) (max_len : Nat) :
    Tcb → Int → List WaitInput → Option (Tcb × Int)
  | tcb, ret, inputs =>
    if ret ≠ 0 then some (tcb, ret)
    else if tcb.state = FsmState.CLOSED then
      /- a reset was received -/
      some (tcb, -ECONNRESET)
    else
      /- try to read available data -/
      let (t1, n) := fsm_call_recv tcb max_len
      let r1 : Int := n
      /- if FIN was received (CLOSE_WAIT), leave the loop -/
      if t1.state = FsmState.CLOSE_WAIT then some (t1, r1)
      else if r1 ≤ 0 then
        match inputs with
        | [] => none
        | (m, ext) :: rest =>
          let t2 := ext t1
          match m with
          | Msg.CONNECTION_TIMEOUT =>
            gnrc_tcp_recv_loop fsm max_len (fsm.timeoutConnection t2) (-ECONNABORTED) rest
          | Msg.USER_SPEC_TIMEOUT =>
            gnrc_tcp_recv_loop fsm max_len (fsm_clear_retransmit t2) (-ETIMEDOUT) rest
          | Msg.NOTIFY_USER =>
            gnrc_tcp_recv_loop fsm max_len t2 r1 rest
          | Msg.PROBE_TIMEOUT =>
            /- default case: unexpected message, ignored -/
            gnrc_tcp_recv_loop fsm max_len t2 r1 rest
      else
        /- ret > 0: the surrounding while condition fails, loop exits -/
        some (t1, r1)

/-- Model of `gnrc_tcp_recv`.  A `timeout_duration_ms` of value `0` selects the
non-blocking path.  The user data buffer itself is not modelled (only the
byte counts are); scheduling of the connection/user timers is reflected by
which `Msg` values may appear among the wait inputs. -/
def gnrc_tcp_recv (fsm : FsmOracle) (tcb : Tcb) (max_len : Nat)
    (timeout_duration_ms : Nat) (inputs : List WaitInput) : Option (Tcb × Int) :=
  /- check if connection is in a valid state -/
  if tcb.state ≠ FsmState.ESTABLISHED ∧ tcb.state ≠ FsmState.FIN_WAIT_1 ∧
      tcb.state ≠ FsmState.FIN_WAIT_2 ∧ tcb.state ≠ FsmState.CLOSE_WAIT then
    some (tcb, -ENOTCONN)
  /- if FIN was received (CLOSE_WAIT): copy data, return byte count (may be 0) -/
  else if tcb.state = FsmState.CLOSE_WAIT then
    let (t1, n) := fsm_call_recv tcb max_len
    some (t1, (n : Int))
  /- non-blocking call: try to read data and return -/
  else if timeout_duration_ms = 0 then
    let (t1, n) := fsm_call_recv tcb max_len
    some (t1, if (n : Int) = 0 then -EAGAIN else (n : Int))
  else
    gnrc_tcp_recv_loop fsm max_len tcb 0 inputs

/-! ## `gnrc_tcp_send`

The send loop keeps three local variables besides `ret`: `probing_mode`,
`probe_timeout_duration_ms` and the probe timer event; they are collected in
`SendSt` (a `true` value of `probe_armed` means the probe timer event is
currently scheduled). -/

structure SendSt where
  probing_mode : Bool
  probe_timeout_duration_ms : Nat
  probe_armed : Bool
deriving DecidableEq, Repr

/-- Pre-mailbox part of one iteration of the send loop: the reset check, the
zero-window probe setup, and the `FSM_EVENT_CALL_SEND` attempt.  The final
`Bool` is `true` iff the iteration executed `break` (reset received). -/
def gnrc_tcp_send_iter_pre (fsm : FsmOracle) (len : Nat) (tcb : Tcb) (st : SendSt)
    (ret : Int) : Tcb × SendSt × Int × Bool :=
  /- check if the connection state is closed; if so, a reset was received -/
  if tcb.state = FsmState.CLOSED then (tcb, st, -ECONNRESET, true)
  else
    /- if the send window is closed: set up probing -/
    let st1 := if tcb.snd_wnd = 0 then
        let d := if st.probing_mode then st.probe_timeout_duration_ms else tcb.rto
        /- (re)schedule the probe timeout at the current probe duration -/
        { probing_mode := true, probe_timeout_duration_ms := d, probe_armed := true }
      else st
    /- try to send data if nothing has been sent and we are not probing -/
    if ret = 0 ∧ st1.probing_mode = false then
      let (t1, r1) := fsm.callSend tcb len
      (t1, st1, r1, false)
    else (tcb, st1, ret, false)

/-- Message handler of the send loop (the `switch (msg.type)` after
`mbox_get`).  `lower`/`upper` are `CONFIG_GNRC_TCP_PROBE_LOWER_BOUND_MS` and
`CONFIG_GNRC_TCP_PROBE_UPPER_BOUND_MS`; the doubling of the probe interval is
`uint32_t` arithmetic. -/
def gnrc_tcp_send_handle (fsm : FsmOracle) (lower upper : Nat) (tcb : Tcb)
    (st : SendSt) (ret : Int) (m : Msg) : Tcb × SendSt × Int :=
  match m with
  | Msg.CONNECTION_TIMEOUT =>
    (fsm.timeoutConnection tcb, st, -ECONNABORTED)
  | Msg.USER_SPEC_TIMEOUT =>
    (fsm_clear_retransmit tcb, st, -ETIMEDOUT)
  | Msg.PROBE_TIMEOUT =>
    /- send probe, then double the interval and clamp it -/
    let t1 := fsm.sendProbe tcb
    let d1 := (st.probe_timeout_duration_ms + st.probe_timeout_duration_ms) % 2 ^ 32
    let d2 := if d1 < lower then lower else if d1 > upper then upper else d1
    (t1, { st with probe_timeout_duration_ms := d2 }, ret)
  | Msg.NOTIFY_USER =>
    /- connection alive: the connection timeout is rescheduled (not tracked);
       if the window re-opened and we are probing, stop probing -/
    if 0 < tcb.snd_wnd ∧ st.probing_mode then
      (tcb, { st with probing_mode := false, probe_armed := false }, ret)
    else (tcb, st, ret)

/-- The send loop `while (ret == 0 || tcb->pkt_retransmit != NULL) { ... }`,
recursing over the wait inputs. -/
def gnrc_tcp_send_loop (fsm : FsmOracle) (lower upper len : Nat) :
    Tcb → SendSt → Int → List WaitInput → Option (Tcb × Int)
  | tcb, st, ret, inputs =>
    if ret = 0 ∨ tcb.pkt_retransmit then
      match gnrc_tcp_send_iter_pre fsm len tcb st ret with
      | (t1, _, r1, true) => some (t1, r1)
      | (t1, st1, r1, false) =>
        match inputs with
        | [] => none
        | (m, ext) :: rest =>
          let (t2, st2, r2) := gnrc_tcp_send_handle fsm lower upper (ext t1) st1 r1 m
          gnrc_tcp_send_loop fsm lower upper len t2 st2 r2 rest
    else some (tcb, ret)

/-- Model of `gnrc_tcp_send`.  The user payload is modelled by its length only.
Scheduling of the connection/user timers is reflected by which `Msg` values
may appear among the wait inputs (`timeout_duration_ms` only decides whether
the user timer is scheduled at all). -/
def gnrc_tcp_send (fsm : FsmOracle) (lower upper : Nat) (tcb : Tcb) (len : Nat)
    (timeout_duration_ms : Nat) (inputs : List WaitInput) : Option (Tcb × Int) :=
  /- check if connection is in a valid state -/
  if tcb.state ≠ FsmState.ESTABLISHED ∧ tcb.state ≠ FsmState.CLOSE_WAIT then
    some (tcb, -ENOTCONN)
  else
    /- ret = 0, probing_mode = false, probe timer unscheduled -/
    gnrc_tcp_send_loop fsm lower upper len tcb ⟨false, 0, false⟩ 0 inputs

/-! ## `_gnrc_tcp_open` and the open/close/abort calls

For the claims about these calls the externally visible *actions* of a call
matter (FSM events issued, mailbox bound, timers scheduled), so the open and
close models additionally return a trace of such actions.  The traces of the
inner wait loops (which can only reschedule the connection timeout) are not
tracked; the claims about empty traces concern paths that return before any
loop runs, and every path that reaches a loop already has a non-empty trace. -/

inductive FsmEventTag where
  | CALL_OPEN
  | CALL_SEND
  | CALL_RECV
  | CALL_CLOSE
  | CALL_ABORT
  | TIMEOUT_CONNECTION
  | SEND_PROBE
  | CLEAR_RETRANSMIT
deriving DecidableEq, Repr

inductive TraceItem where
  | fsmEvent (e : FsmEventTag)
  | mboxBind
  | mboxUnbind
  | schedConnTimeout
  | unschedConnTimeout
deriving DecidableEq, Repr

/-- Endpoint `gnrc_tcp_ep_t` with a 16-byte IPv6 address. -/
structure GnrcTcpEp where
  family : Int
  addr : List Nat
  port : Nat
  netif : Nat
deriving DecidableEq, Repr

/-- Model of `ipv6_addr_is_unspecified`: all address bytes are zero. -/
def ipv6_addr_is_unspecified (a : List Nat) : Bool :=
  a.all (fun b => b = 0)

/-- Setup part of `_gnrc_tcp_open` (after the `-EISCONN` check, before the
`FSM_EVENT_CALL_OPEN` call): bind the mailbox, fill the TCB identity fields,
and for an active open schedule the connection timeout.  Returns `none` when
the `assert(remote != NULL)` of the active path would fire. -/
def _gnrc_tcp_open_setup (tcb : Tcb) (remote : Option GnrcTcpEp)
    (local_addr : Option (List Nat)) (local_port : Nat) (passive : Bool) :
    Option (Tcb × List TraceItem) :=
  if passive then
    /- mark connection as passively opened -/
    let t1 := { tcb with statusPassive := true }
    let t2 :=
      match local_addr with
      | some la =>
        if tcb.address_family = AF_INET6 then
          /- store given address in TCB; allow any address if unspecified -/
          { t1 with local_addr := la,
                    statusAllowAnyAddr := t1.statusAllowAnyAddr ∨ ipv6_addr_is_unspecified la }
        else t1
      | none => t1
    some ({ t2 with local_port := local_port }, [TraceItem.mboxBind])
  else
    match remote with
    | none => none
    | some r =>
      let t1 :=
        if tcb.address_family = AF_INET6 then
          { tcb with peer_addr := r.addr, ll_iface := r.netif }
        else tcb
      let t2 := { t1 with local_port := local_port, peer_port := r.port }
      some (t2, [TraceItem.mboxBind, TraceItem.schedConnTimeout])

/-- Wait loop of `_gnrc_tcp_open`:
`while (ret >= 0 && state != CLOSED && state != ESTABLISHED && state != CLOSE_WAIT)`. -/
def _gnrc_tcp_open_loop (fsm : FsmOracle) :
    Tcb → Int → List WaitInput → Option (Tcb × Int)
  | tcb, ret, inputs =>
    if ret < 0 ∨ tcb.state = FsmState.CLOSED ∨ tcb.state = FsmState.ESTABLISHED ∨
        tcb.state = FsmState.CLOSE_WAIT then
      some (tcb, ret)
    else
      match inputs with
      | [] => none
      | (m, ext) :: rest =>
        let t1 := ext tcb
        match m with
        | Msg.NOTIFY_USER =>
          /- on SYN_RCVD of a passive open the connection timeout is
             rescheduled (timer action inside the loop, not tracked) -/
          _gnrc_tcp_open_loop fsm t1 ret rest
        | Msg.CONNECTION_TIMEOUT =>
          if t1.statusPassive then
            /- stop retransmissions, repeat the open call (result discarded) -/
            _gnrc_tcp_open_loop fsm (fsm.callOpen (fsm_clear_retransmit t1)).1 ret rest
          else
            _gnrc_tcp_open_loop fsm (fsm.timeoutConnection t1) (-ETIMEDOUT) rest
        | Msg.USER_SPEC_TIMEOUT =>
          /- default case: unexpected message, ignored -/
          _gnrc_tcp_open_loop fsm t1 ret rest
        | Msg.PROBE_TIMEOUT =>
          /- default case: unexpected message, ignored -/
          _gnrc_tcp_open_loop fsm t1 ret rest

/-- Model of `_gnrc_tcp_open`. -/
def _gnrc_tcp_open (fsm : FsmOracle) (tcb : Tcb) (remote : Option GnrcTcpEp)
    (local_addr : Option (List Nat)) (local_port : Nat) (passive : Bool)
    (inputs : List WaitInput) : Option (Tcb × Int) × List TraceItem :=
  /- TCB is already connected: return -EISCONN -/
  if tcb.state ≠ FsmState.CLOSED then (some (tcb, -EISCONN), [])
  else
    match _gnrc_tcp_open_setup tcb remote local_addr local_port passive with
    | none => (none, [])
    | some (t1, tr1) =>
      /- call FSM with event: CALL_OPEN -/
      let (t2, r0) := fsm.callOpen t1
      let tr2 := tr1 ++ [TraceItem.fsmEvent FsmEventTag.CALL_OPEN]
      match _gnrc_tcp_open_loop fsm t2 r0 inputs with
      | none => (none, tr2)
      | some (t3, r3) =>
        /- cleanup; a wait loop that ended in CLOSED without a recorded error
           means the SYN was answered with a RST -/
        let r4 := if t3.state = FsmState.CLOSED ∧ r3 = 0 then -ECONNREFUSED else r3
        (some (t3, r4),
         tr2 ++ [TraceItem.mboxUnbind, TraceItem.unschedConnTimeout])

/-- Model of `gnrc_tcp_open_active`. -/
def gnrc_tcp_open_active (fsm : FsmOracle) (tcb : Tcb) (remote : GnrcTcpEp)
    (local_port : Nat) (inputs : List WaitInput) : Option (Tcb × Int) × List TraceItem :=
  /- check if the AF family in remote is supported -/
  if remote.family ≠ AF_INET6 then (some (tcb, -EAFNOSUPPORT), [])
  /- check if the AF family matches the internally used AF family -/
  else if remote.family ≠ tcb.address_family then (some (tcb, -EINVAL), [])
  else _gnrc_tcp_open fsm tcb (some remote) none local_port false inputs

/-- Model of `gnrc_tcp_open_passive`. -/
def gnrc_tcp_open_passive (fsm : FsmOracle) (tcb : Tcb) (localEp : GnrcTcpEp)
    (inputs : List WaitInput) : Option (Tcb × Int) × List TraceItem :=
  /- check if the AF family in the local endpoint is supported -/
  if localEp.family ≠ AF_INET6 then (some (tcb, -EAFNOSUPPORT), [])
  /- check if the AF family matches the internally used AF family -/
  else if localEp.family ≠ tcb.address_family then (some (tcb, -EINVAL), [])
  else _gnrc_tcp_open fsm tcb none (some localEp.addr) localEp.port true inputs

/-! ## `gnrc_tcp_close` -/

/-- Teardown wait loop of `gnrc_tcp_close`:
`while (tcb->state != FSM_STATE_CLOSED)`. -/
def gnrc_tcp_close_loop (fsm : FsmOracle) :
    Tcb → List WaitInput → Option Tcb
  | tcb, inputs =>
    if tcb.state = FsmState.CLOSED then some tcb
    else
      match inputs with
      | [] => none
      | (m, ext) :: rest =>
        let t1 := ext tcb
        match m with
        | Msg.CONNECTION_TIMEOUT =>
          gnrc_tcp_close_loop fsm (fsm.timeoutConnection t1) rest
        | Msg.NOTIFY_USER =>
          gnrc_tcp_close_loop fsm t1 rest
        | Msg.USER_SPEC_TIMEOUT =>
          /- default case: unexpected message, ignored -/
          gnrc_tcp_close_loop fsm t1 rest
        | Msg.PROBE_TIMEOUT =>
          /- default case: unexpected message, ignored -/
          gnrc_tcp_close_loop fsm t1 rest

/-- Model of `gnrc_tcp_close`. -/
def gnrc_tcp_close (fsm : FsmOracle) (tcb : Tcb) (inputs : List WaitInput) :
    Option Tcb × List TraceItem :=
  /- return if the connection is closed -/
  if tcb.state = FsmState.CLOSED then (some tcb, [])
  else
    /- bind mailbox, schedule connection timeout, start teardown -/
    let t1 := fsm.callClose tcb
    let tr := [TraceItem.mboxBind, TraceItem.schedConnTimeout,
               TraceItem.fsmEvent FsmEventTag.CALL_CLOSE]
    match gnrc_tcp_close_loop fsm t1 inputs with
    | none => (none, tr)
    | some t2 =>
      (some t2, tr ++ [TraceItem.mboxUnbind, TraceItem.unschedConnTimeout])

/-! ## `gnrc_tcp_calc_csum` -/

/-- The `GNRC_NETTYPE_TCP` tag (value immaterial, a distinct tag). -/
def GNRC_NETTYPE_TCP : Int := 6

/-- A packet snip: its network type tag, the checksum bytes stored in the TCP
header it carries (most significant byte first, i.e. network byte order), and
an abstract identifier of the rest of the chain (`hdr->next`). -/
structure Pktsnip where
  nettype : Int
  csum_hi : Nat
  csum_lo : Nat
  next : Nat
deriving DecidableEq, Repr

/-- Model of `gnrc_tcp_calc_csum`.  The checksum computation
`_gnrc_tcp_pkt_calc_csum(hdr, pseudo_hdr, hdr->next)` lives in
`gnrc_tcp_pkt.c`, which is not among the sources; it is abstracted into the
oracle function `calcCsum` whose `uint16_t` result is taken `% 2 ^ 16`.
`byteorder_htons` splits the checksum into its network-order bytes. -/
def gnrc_tcp_calc_csum (calcCsum : Pktsnip → Pktsnip → Nat)
    (hdr pseudo_hdr : Option Pktsnip) : Option Pktsnip × Int :=
  match hdr, pseudo_hdr with
  | none, _ => (hdr, -EFAULT)
  | some _, none => (hdr, -EFAULT)
  | some h, some p =>
    if h.nettype ≠ GNRC_NETTYPE_TCP then (some h, -EBADMSG)
    else
      let csum := calcCsum h p % 2 ^ 16
      if csum = 0 then (some h, -ENOENT)
      else (some { h with csum_hi := csum / 2 ^ 8, csum_lo := csum % 2 ^ 8 }, 0)

/-! ## `gnrc_tcp_ep_from_str`

The input string is a `List Char` (C strings have no embedded NUL, so the NUL
terminator is the end of the list).  `ipv6_addr_from_str` is external library
code and is abstracted into the `parseAddr` oracle; since it may scribble on
the output address even when it fails, a failed parse stores an arbitrary
`scratch` value in the address field. -/

/-- The digit test used by the parser: the C code rejects a character `c` with
`(c < '0') || ('9' < c)`. -/
def isDigitCh (c : Char) : Bool := !(c < '0' || '9' < c)

/-- Model of `strchr(s + i, c)` as an index: the first position at or after `i` holding `c`. -/
def strchrFrom (s : List Char) (c : Char) (i : Nat) : Option Nat :=
  ((s.drop i).findIdx? (fun x => x == c)).map (· + i)

/-- Decimal value of the digit prefix of a character list. -/
def digitsToNat : List Char → Nat → Nat
  | [], acc => acc
  | c :: cs, acc =>
    if isDigitCh c then digitsToNat cs (10 * acc + (c.toNat - Char.toNat '0')) else acc

/-- Model of `atol` on a non-negative decimal string, for the 32-bit targets the code
runs on: newlib's `atol` is `strtol(s, NULL, 10)`, which saturates at
`LONG_MAX = 2^31 - 1` on overflow. -/
def atol (s : List Char) : Nat := min (digitsToNat s 0) (2 ^ 31 - 1)

/-- The constant `IPV6_ADDR_MAX_STR_LEN`, the size (terminator included) of the
longest IPv6 address string, 46. -/
def IPV6_ADDR_MAX_STR_LEN : Nat := 46

/-- Step 5 of `gnrc_tcp_ep_from_str` (the address part).  `addr_end` is the
index of the original `']'` or, when an interface identifier was present, of
the `'%'`; `addr_begin` is always 0 here (checked in step 2), so the C
pointer difference `addr_end - (addr_begin + 1)` is `addr_end - 1` over `Int`. -/
def ep_from_str_addr (parseAddr : List Char → Option (List Nat))
    (scratch : List Nat) (ep : GnrcTcpEp) (s : List Char) (port netif addr_end : Nat) :
    GnrcTcpEp × Int :=
  /- 5.1) verify the address length and copy the address part into tmp -/
  let len : Int := (addr_end : Int) - (0 + 1)
  if 0 ≤ len ∧ len < (IPV6_ADDR_MAX_STR_LEN : Int) then
    let tmp := (s.drop 1).take len.toNat
    /- 5.2) try to read the address into the endpoint; on failure the library
       routine may have scribbled on the address bytes already -/
    match parseAddr tmp with
    | none => ({ ep with addr := scratch }, -EINVAL)
    | some a =>
      ({ family := AF_INET6, addr := a,
         port := port % 2 ^ 16, netif := netif % 2 ^ 16 }, 0)
  else (ep, -EINVAL)

/-- Step 4 of `gnrc_tcp_ep_from_str` (the optional interface identifier). -/
def ep_from_str_netif (parseAddr : List Char → Option (List Nat))
    (scratch : List Nat) (ep : GnrcTcpEp) (s : List Char) (ae port : Nat) :
    GnrcTcpEp × Int :=
  match strchrFrom s '%' 0 with
  | some q =>
    /- 4.1) the identifier must be non-empty and within the brackets -/
    if ae ≤ q + 1 then (ep, -EINVAL)
    /- 4.2) the identifier must be a number (the characters in [q+1, ae)) -/
    else if (((s.drop (q + 1)).take (ae - (q + 1))).all isDigitCh) = false then
      (ep, -EINVAL)
    /- 4.3) read it and replace addr_end with the position of the '%' -/
    else ep_from_str_addr parseAddr scratch ep s port (atol (s.drop (q + 1))) q
  | none => ep_from_str_addr parseAddr scratch ep s port 0 ae

/-- Step 3 of `gnrc_tcp_ep_from_str` (the optional port number; the search
for `':'` starts at the `']'`). -/
def ep_from_str_port (parseAddr : List Char → Option (List Nat))
    (scratch : List Nat) (ep : GnrcTcpEp) (s : List Char) (ae : Nat) :
    GnrcTcpEp × Int :=
  match strchrFrom s ':' ae with
  | some p =>
    /- 3.1) characters must remain after the ':' -/
    if p + 1 = s.length then (ep, -EINVAL)
    /- 3.2) the port must be a number -/
    else if ((s.drop (p + 1)).all isDigitCh) = false then (ep, -EINVAL)
    /- 3.3) read it and verify that it is within range -/
    else if 0xFFFF < atol (s.drop (p + 1)) then (ep, -EINVAL)
    else ep_from_str_netif parseAddr scratch ep s ae (atol (s.drop (p + 1)))
  | none => ep_from_str_netif parseAddr scratch ep s ae 0

/-- Model of `gnrc_tcp_ep_from_str`. -/
def gnrc_tcp_ep_from_str (parseAddr : List Char → Option (List Nat))
    (scratch : List Nat) (ep : GnrcTcpEp) (s : List Char) : GnrcTcpEp × Int :=
  match strchrFrom s '[' 0, strchrFrom s ']' 0 with
  /- 1) ensure that s contains a single pair of brackets -/
  | none, _ => (ep, -EINVAL)
  | some _, none => (ep, -EINVAL)
  | some ab, some ae =>
    if (strchrFrom s '[' (ab + 1)).isSome || (strchrFrom s ']' (ae + 1)).isSome then
      (ep, -EINVAL)
    /- 2) ensure that the first character is the opening bracket -/
    else if ab ≠ 0 then (ep, -EINVAL)
    else ep_from_str_port parseAddr scratch ep s ae

/-! The malformedness conditions of claim C3, written from the claim text:
no `'['` or no `']'`; not beginning with `'['`; more than one `'['` or `']'`;
a `':'` after the `']'` followed by nothing or by a non-decimal character; a
decimal port value greater than 65535; a `'%'` whose interface field is empty
or non-decimal or lies outside the brackets; or an address part whose length
is not in `[0, IPV6_ADDR_MAX_STR_LEN - 1]` or that does not parse as an IPv6
address. -/

/-- Claim C3's port conditions: a `':'` after the `']'` (at index `ae`)
followed by nothing or by a non-decimal character, or a decimal port value
greater than 65535. -/
def specPortBad (s : List Char) (ae : Nat) : Bool :=
  match strchrFrom s ':' ae with
  | some p =>
    decide (p + 1 = s.length)
    || (((s.drop (p + 1)).all isDigitCh) = false)
    || decide (65535 < digitsToNat (s.drop (p + 1)) 0)
  | none => false

/-- Claim C3's interface conditions: a `'%'` whose interface field is empty
or non-decimal or lies outside the brackets. -/
def specNetifBad (s : List Char) (ae : Nat) : Bool :=
  match strchrFrom s '%' 0 with
  | some q =>
    decide (ae ≤ q + 1)
    || ((((s.drop (q + 1)).take (ae - (q + 1))).all isDigitCh) = false)
  | none => false

/-- Claim C3's address conditions: an address part (between the leading `'['`
and the `'%'` if present, the `']'` otherwise) whose length is not in
`[0, IPV6_ADDR_MAX_STR_LEN - 1]` or that does not parse as an IPv6 address. -/
def specAddrBad (parseAddr : List Char → Option (List Nat)) (s : List Char)
    (ae : Nat) : Bool :=
  let addr_end := match strchrFrom s '%' 0 with | some q => q | none => ae
  decide (IPV6_ADDR_MAX_STR_LEN - 1 < addr_end - 1)
  || (parseAddr ((s.drop 1).take (addr_end - 1))).isNone

/-- The full malformedness predicate of claim C3. -/
def epStrMalformed (parseAddr : List Char → Option (List Nat)) (s : List Char) : Bool :=
  decide (s.count '[' = 0) || decide (s.count ']' = 0)
  || decide (s.head? ≠ some '[')
  || decide (2 ≤ s.count '[') || decide (2 ≤ s.count ']')
  || (match strchrFrom s ']' 0 with
      | none => false
      | some ae => specPortBad s ae || specNetifBad s ae || specAddrBad parseAddr s ae)

/-! ## Sample values used by the witness theorems -/

/-- A trivial FSM oracle. -/
def trivFsm : FsmOracle where
  callOpen := fun t => ({ t with state := FsmState.SYN_SENT }, 0)
  callSend := fun t _ => (t, 0)
  sendProbe := fun t => t
  timeoutConnection := fun t => { t with state := FsmState.CLOSED }
  callClose := fun t => { t with state := FsmState.FIN_WAIT_1 }

/-- A TCB in state `CLOSED`. -/
def tcbClosed : Tcb where
  state := FsmState.CLOSED
  address_family := AF_INET6
  local_addr := [0, 0, 0, 0, 0, 0, 0, 0, 0, 0, 0, 0, 0, 0, 0, 0]
  peer_addr := [0, 0, 0, 0, 0, 0, 0, 0, 0, 0, 0, 0, 0, 0, 0, 0]
  ll_iface := 0
  local_port := 0
  peer_port := 0
  statusPassive := false
  statusAllowAnyAddr := false
  snd_wnd := 0
  rto := 0
  rcvbuf_avail := 0
  pkt_retransmit := false
  retransmit_timer_armed := false

/-- A TCB in state `ESTABLISHED` with an open window and queued data. -/
def tcbEstablished : Tcb :=
  { tcbClosed with state := FsmState.ESTABLISHED, snd_wnd := 100,
                   rto := 700, rcvbuf_avail := 5, peer_port := 80, local_port := 4242 }

/-- A TCB in state `CLOSE_WAIT` with an empty receive buffer. -/
def tcbCloseWait : Tcb :=
  { tcbEstablished with state := FsmState.CLOSE_WAIT, rcvbuf_avail := 0 }

/-- A remote endpoint with an unsupported address family (`AF_UNSPEC = 0`). -/
def epBadFamily : GnrcTcpEp where
  family := 0
  addr := [0, 0, 0, 0, 0, 0, 0, 0, 0, 0, 0, 0, 0, 0, 0, 1]
  port := 80
  netif := 0

/-- A remote IPv6 endpoint. -/
def epV6 : GnrcTcpEp := { epBadFamily with family := AF_INET6 }

/-- An address parser that accepts everything (for witnesses). -/
def paAccept : List Char → Option (List Nat) := fun _ => some [0, 1]

/-! # Theorems for the claims -/

/-- Claim C8: calling `gnrc_tcp_close` on a TCB whose state is `CLOSED`
returns immediately (for any wait inputs, even none) without issuing any FSM
event, binding any mailbox, or scheduling any timer (empty action trace), and
leaves the TCB unchanged. -/
theorem close_on_closed_is_noop (fsm : FsmOracle) (tcb : Tcb)
    (inputs : List WaitInput) (h : tcb.state = FsmState.CLOSED) :
    gnrc_tcp_close fsm tcb inputs = (some tcb, []) := by
  simp [gnrc_tcp_close, h]

theorem close_on_closed_is_noop_witness :
    tcbClosed.state = FsmState.CLOSED ∧
    gnrc_tcp_close trivFsm tcbClosed [] = (some tcbClosed, []) :=
  ⟨rfl, close_on_closed_is_noop trivFsm tcbClosed [] rfl⟩

/-- Claim C9: if a TCB is in state `CLOSE_WAIT` when `gnrc_tcp_recv` is
called, then for every `timeout_duration_ms` the call returns immediately
(for any wait inputs, even none) with the number of bytes copied from the
receive buffer, which may be 0; it never blocks and never returns `-EAGAIN`. -/
theorem recv_close_wait_returns_immediately (fsm : FsmOracle) (tcb : Tcb)
    (max_len timeout_duration_ms : Nat) (inputs : List WaitInput)
    (h : tcb.state = FsmState.CLOSE_WAIT) :
    gnrc_tcp_recv fsm tcb max_len timeout_duration_ms inputs
      = some ((fsm_call_recv tcb max_len).1, ((fsm_call_recv tcb max_len).2 : Int))
    ∧ (fsm_call_recv tcb max_len).2 = min tcb.rcvbuf_avail max_len
    ∧ 0 ≤ ((fsm_call_recv tcb max_len).2 : Int)
    ∧ ((fsm_call_recv tcb max_len).2 : Int) ≠ -EAGAIN := by
  refine ⟨?_, rfl, Int.natCast_nonneg _, by simp only [EAGAIN]; omega⟩
  simp [gnrc_tcp_recv, h, fsm_call_recv]

theorem recv_close_wait_returns_immediately_witness :
    tcbCloseWait.state = FsmState.CLOSE_WAIT ∧
    gnrc_tcp_recv trivFsm tcbCloseWait 10 1000 []
      = some ((fsm_call_recv tcbCloseWait 10).1, ((fsm_call_recv tcbCloseWait 10).2 : Int)) :=
  ⟨rfl, (recv_close_wait_returns_immediately trivFsm tcbCloseWait 10 1000 [] rfl).1⟩

/-- Counterexample to claim C7 as stated: a TCB in `CLOSE_WAIT` passes the
"connection is in a valid state" check of `gnrc_tcp_recv` (it is connected,
the peer has half-closed), yet a non-blocking `gnrc_tcp_recv` with no
received data available returns 0 — neither `-EAGAIN` nor a positive byte
count. -/
theorem recv_nonblocking_close_wait_cex :
    tcbCloseWait.state = FsmState.CLOSE_WAIT ∧ tcbCloseWait.rcvbuf_avail = 0 ∧
    gnrc_tcp_recv trivFsm tcbCloseWait 10 0 [] = some (tcbCloseWait, 0) ∧
    ¬ ((0 : Int) = -EAGAIN) ∧ ¬ ((0 : Int) > 0) := by
  refine ⟨rfl, rfl, ?_, by decide, by decide⟩
  decide

/-- Claim C7 (amended: the `CLOSE_WAIT` state — connected, but with the FIN
already received — is excluded, and "data is available" means at least one
byte can be copied into the caller's buffer): for every TCB in state
`ESTABLISHED`, `FIN_WAIT_1` or `FIN_WAIT_2`, a non-blocking `gnrc_tcp_recv`
(`timeout_duration_ms = 0`) returns `-EAGAIN` without blocking (no wait input
is consumed) when no byte can be copied, and the positive number of bytes
copied otherwise. -/
theorem recv_nonblocking_eagain_or_bytes (fsm : FsmOracle) (tcb : Tcb)
    (max_len : Nat) (inputs : List WaitInput)
    (h : tcb.state = FsmState.ESTABLISHED ∨ tcb.state = FsmState.FIN_WAIT_1 ∨
         tcb.state = FsmState.FIN_WAIT_2) :
    (min tcb.rcvbuf_avail max_len = 0 →
      gnrc_tcp_recv fsm tcb max_len 0 inputs
        = some ((fsm_call_recv tcb max_len).1, -EAGAIN))
    ∧ (0 < min tcb.rcvbuf_avail max_len →
      gnrc_tcp_recv fsm tcb max_len 0 inputs
        = some ((fsm_call_recv tcb max_len).1, (min tcb.rcvbuf_avail max_len : Int))
      ∧ 0 < (min tcb.rcvbuf_avail max_len : Int)) := by
  constructor
  · intro h0
    rcases h with h | h | h <;> simp [gnrc_tcp_recv, h, fsm_call_recv, h0]
  · intro h0
    have hne : ¬ ((min tcb.rcvbuf_avail max_len : Int) = 0) := by
      omega
    rcases h with h | h | h <;>
      refine ⟨by simp [gnrc_tcp_recv, h, fsm_call_recv, hne], by omega⟩

theorem recv_nonblocking_eagain_or_bytes_witness :
    (tcbCloseWait.state = FsmState.ESTABLISHED ∨
     tcbCloseWait.state = FsmState.FIN_WAIT_1 ∨
     tcbCloseWait.state = FsmState.FIN_WAIT_2) = False ∧
    (tcbEstablished.state = FsmState.ESTABLISHED ∨
     tcbEstablished.state = FsmState.FIN_WAIT_1 ∨
     tcbEstablished.state = FsmState.FIN_WAIT_2) ∧
    (0 < min tcbEstablished.rcvbuf_avail 10 →
      gnrc_tcp_recv trivFsm tcbEstablished 10 0 []
        = some ((fsm_call_recv tcbEstablished 10).1, (min tcbEstablished.rcvbuf_avail 10 : Int))
      ∧ 0 < (min tcbEstablished.rcvbuf_avail 10 : Int)) ∧
    (min { tcbEstablished with rcvbuf_avail := 0 }.rcvbuf_avail 10 = 0 →
      gnrc_tcp_recv trivFsm { tcbEstablished with rcvbuf_avail := 0 } 10 0 []
        = some ((fsm_call_recv { tcbEstablished with rcvbuf_avail := 0 } 10).1, -EAGAIN)) :=
  ⟨by decide, Or.inl rfl,
   (recv_nonblocking_eagain_or_bytes trivFsm tcbEstablished 10 [] (Or.inl rfl)).2,
   (recv_nonblocking_eagain_or_bytes trivFsm { tcbEstablished with rcvbuf_avail := 0 }
     10 [] (Or.inl rfl)).1⟩

/-- Claim C4: `gnrc_tcp_calc_csum` fails exactly when an argument is NULL
(`-EFAULT`), when the header snip is not marked as TCP (`-EBADMSG`), or when
the computed checksum is zero (`-ENOENT`); otherwise it stores the checksum
in the TCP header in network byte order (most significant byte first) and
returns 0. -/
theorem calc_csum_cases (calcCsum : Pktsnip → Pktsnip → Nat)
    (hdr pseudo_hdr : Option Pktsnip) :
    ((gnrc_tcp_calc_csum calcCsum hdr pseudo_hdr).2 = -EFAULT ↔
      (hdr = none ∨ pseudo_hdr = none))
    ∧ (∀ h p, hdr = some h → pseudo_hdr = some p →
        ((gnrc_tcp_calc_csum calcCsum hdr pseudo_hdr).2 = -EBADMSG ↔
          h.nettype ≠ GNRC_NETTYPE_TCP))
    ∧ (∀ h p, hdr = some h → pseudo_hdr = some p → h.nettype = GNRC_NETTYPE_TCP →
        ((gnrc_tcp_calc_csum calcCsum hdr pseudo_hdr).2 = -ENOENT ↔
          calcCsum h p % 2 ^ 16 = 0))
    ∧ (∀ h p, hdr = some h → pseudo_hdr = some p → h.nettype = GNRC_NETTYPE_TCP →
        calcCsum h p % 2 ^ 16 ≠ 0 →
        gnrc_tcp_calc_csum calcCsum hdr pseudo_hdr
          = (some { h with csum_hi := calcCsum h p % 2 ^ 16 / 2 ^ 8,
                           csum_lo := calcCsum h p % 2 ^ 16 % 2 ^ 8 }, 0)) := by
  refine ⟨?_, ?_, ?_, ?_⟩
  · rcases hdr with _ | h <;> rcases pseudo_hdr with _ | p <;>
      simp only [gnrc_tcp_calc_csum, EFAULT, EBADMSG, ENOENT] <;>
      try simp
    split_ifs <;> simp
  · rintro h p rfl rfl
    simp only [gnrc_tcp_calc_csum, EBADMSG, ENOENT]
    split_ifs with h1 h2 <;> simp [h1]
  · rintro h p rfl rfl ht
    simp only [gnrc_tcp_calc_csum, EBADMSG, ENOENT, ht]
    split_ifs with h1 h2 <;> simp_all
  · rintro h p rfl rfl ht hc
    simp only [gnrc_tcp_calc_csum, ht, hc]
    split_ifs with h1 h2 <;> simp_all

theorem calc_csum_cases_witness :
    (⟨GNRC_NETTYPE_TCP, 0, 0, 42⟩ : Pktsnip).nettype = GNRC_NETTYPE_TCP ∧
    (fun (_ : Pktsnip) (_ : Pktsnip) => 0x1234) (⟨GNRC_NETTYPE_TCP, 0, 0, 42⟩ : Pktsnip)
        (⟨0, 0, 0, 0⟩ : Pktsnip) % 2 ^ 16 ≠ 0 ∧
    gnrc_tcp_calc_csum (fun _ _ => 0x1234) (some ⟨GNRC_NETTYPE_TCP, 0, 0, 42⟩)
        (some ⟨0, 0, 0, 0⟩)
      = (some ⟨GNRC_NETTYPE_TCP, 0x12, 0x34, 42⟩, 0) :=
  ⟨rfl, by decide,
   (calc_csum_cases (fun _ _ => 0x1234) (some ⟨GNRC_NETTYPE_TCP, 0, 0, 42⟩)
     (some ⟨0, 0, 0, 0⟩)).2.2.2 _ _ rfl rfl rfl (by decide)⟩

/-- Claim C1: in `gnrc_tcp_send`, while the peer-advertised send window is
zero and the user has data pending: (1) when probing starts, the probe
interval is the connection's current `rto` and the probe timer is scheduled;
(2) after each probe is sent (`MSG_TYPE_PROBE_TIMEOUT`), the interval doubles
and is clamped into `[CONFIG_GNRC_TCP_PROBE_LOWER_BOUND_MS,
CONFIG_GNRC_TCP_PROBE_UPPER_BOUND_MS]`; (3) probing stops — the probe timer
is cancelled — as soon as a notification is processed with `snd_wnd > 0`. -/
theorem zero_window_probing :
    (∀ (fsm : FsmOracle) (len : Nat) (tcb : Tcb) (st : SendSt) (ret : Int),
      tcb.state ≠ FsmState.CLOSED → tcb.snd_wnd = 0 → st.probing_mode = false →
      (gnrc_tcp_send_iter_pre fsm len tcb st ret).2.1
        = ⟨true, tcb.rto, true⟩)
    ∧ (∀ (fsm : FsmOracle) (lower upper : Nat) (tcb : Tcb) (st : SendSt) (ret : Int),
      st.probe_timeout_duration_ms + st.probe_timeout_duration_ms < 2 ^ 32 →
      lower ≤ upper →
      (gnrc_tcp_send_handle fsm lower upper tcb st ret Msg.PROBE_TIMEOUT).2.1
        = { st with
              probe_timeout_duration_ms :=
                (max lower (min upper (2 * st.probe_timeout_duration_ms))) })
    ∧ (∀ (fsm : FsmOracle) (lower upper : Nat) (tcb : Tcb) (st : SendSt) (ret : Int),
      0 < tcb.snd_wnd → st.probing_mode = true →
      (gnrc_tcp_send_handle fsm lower upper tcb st ret Msg.NOTIFY_USER).2.1
        = { st with probing_mode := false, probe_armed := false }) := by
  refine ⟨?_, ?_, ?_⟩
  · intro fsm len tcb st ret hstate hwnd hpm
    simp [gnrc_tcp_send_iter_pre, hstate, hwnd, hpm]
  · intro fsm lower upper tcb st ret hlt hlu
    have hmod : (st.probe_timeout_duration_ms + st.probe_timeout_duration_ms) % 2 ^ 32
        = 2 * st.probe_timeout_duration_ms := by omega
    simp only [gnrc_tcp_send_handle, hmod]
    split_ifs <;> simp [SendSt.mk.injEq] <;> omega
  · intro fsm lower upper tcb st ret hwnd hpm
    simp [gnrc_tcp_send_handle, hwnd, hpm]

theorem zero_window_probing_witness :
    (tcbEstablished.state ≠ FsmState.CLOSED ∧
      (gnrc_tcp_send_iter_pre trivFsm 5 { tcbEstablished with snd_wnd := 0 }
          ⟨false, 0, false⟩ 0).2.1
        = ⟨true, { tcbEstablished with snd_wnd := 0 }.rto, true⟩)
    ∧ (gnrc_tcp_send_handle trivFsm 1000 60000 tcbEstablished ⟨true, 700, true⟩ 0
          Msg.PROBE_TIMEOUT).2.1
        = ⟨true, max 1000 (min 60000 (2 * 700)), true⟩
    ∧ (gnrc_tcp_send_handle trivFsm 1000 60000 tcbEstablished ⟨true, 1400, true⟩ 0
          Msg.NOTIFY_USER).2.1
        = ⟨false, 1400, false⟩ :=
  ⟨⟨by decide,
    zero_window_probing.1 trivFsm 5 { tcbEstablished with snd_wnd := 0 }
      ⟨false, 0, false⟩ 0 (by decide) rfl rfl⟩,
   zero_window_probing.2.1 trivFsm 1000 60000 tcbEstablished ⟨true, 700, true⟩ 0
     (by decide) (by decide),
   zero_window_probing.2.2 trivFsm 1000 60000 tcbEstablished ⟨true, 1400, true⟩ 0
     (by decide) rfl⟩

/-- Claim C2: in both `gnrc_tcp_send` and `gnrc_tcp_recv`, when the
user-specified timeout message is processed before the operation completed,
the call issues `FSM_EVENT_CLEAR_RETRANSMIT` (emptying the retransmission
queue), the wait loop terminates at once with `-ETIMEDOUT`, and the timeout
handling leaves the TCB's FSM state unchanged (the connection stays open). -/
theorem user_timeout_clears_retransmit_and_returns :
    (∀ (fsm : FsmOracle) (lower upper len : Nat) (tcb : Tcb) (st : SendSt) (ret : Int)
        (ext : Tcb → Tcb) (rest : List WaitInput),
      (ret = 0 ∨ tcb.pkt_retransmit = true) → tcb.state ≠ FsmState.CLOSED →
      gnrc_tcp_send_loop fsm lower upper len tcb st ret
          ((Msg.USER_SPEC_TIMEOUT, ext) :: rest)
        = some (fsm_clear_retransmit (ext (gnrc_tcp_send_iter_pre fsm len tcb st ret).1),
                -ETIMEDOUT)
      ∧ (fsm_clear_retransmit (ext (gnrc_tcp_send_iter_pre fsm len tcb st ret).1)).state
          = (ext (gnrc_tcp_send_iter_pre fsm len tcb st ret).1).state
      ∧ (fsm_clear_retransmit
          (ext (gnrc_tcp_send_iter_pre fsm len tcb st ret).1)).pkt_retransmit = false)
    ∧ (∀ (fsm : FsmOracle) (max_len : Nat) (tcb : Tcb) (ext : Tcb → Tcb)
        (rest : List WaitInput),
      tcb.state ≠ FsmState.CLOSED → tcb.state ≠ FsmState.CLOSE_WAIT →
      min tcb.rcvbuf_avail max_len = 0 →
      gnrc_tcp_recv_loop fsm max_len tcb 0 ((Msg.USER_SPEC_TIMEOUT, ext) :: rest)
        = some (fsm_clear_retransmit (ext (fsm_call_recv tcb max_len).1), -ETIMEDOUT)
      ∧ (fsm_clear_retransmit (ext (fsm_call_recv tcb max_len).1)).state
          = (ext (fsm_call_recv tcb max_len).1).state
      ∧ (fsm_clear_retransmit (ext (fsm_call_recv tcb max_len).1)).pkt_retransmit
          = false) := by
  constructor
  · intro fsm lower upper len tcb st ret ext rest hcond hstate
    refine ⟨?_, rfl, rfl⟩
    have hb : (gnrc_tcp_send_iter_pre fsm len tcb st ret).2.2.2 = false := by
      simp only [gnrc_tcp_send_iter_pre, if_neg hstate]
      split_ifs <;> rfl
    rcases hpre : gnrc_tcp_send_iter_pre fsm len tcb st ret with ⟨t1, st1, r1, brk⟩
    rw [hpre] at hb
    simp only at hb
    subst hb
    rw [gnrc_tcp_send_loop, if_pos hcond, hpre]
    simp only [gnrc_tcp_send_handle]
    rw [gnrc_tcp_send_loop, if_neg]
    simp only [fsm_clear_retransmit, ETIMEDOUT]
    push_neg
    exact ⟨by omega, by simp [fsm_clear_retransmit]⟩
  · intro fsm max_len tcb ext rest hstate hcw hnodata
    refine ⟨?_, rfl, rfl⟩
    rw [gnrc_tcp_recv_loop]
    simp only [fsm_call_recv, hnodata]
    rw [if_neg (by omega), if_neg hstate, if_neg (by simpa using hcw), if_pos (by omega)]
    rw [gnrc_tcp_recv_loop, if_pos (by simp [ETIMEDOUT])]

theorem user_timeout_clears_retransmit_and_returns_witness :
    tcbEstablished.state ≠ FsmState.CLOSED ∧
    gnrc_tcp_send_loop trivFsm 1000 60000 5 tcbEstablished ⟨false, 0, false⟩ 0
        [(Msg.USER_SPEC_TIMEOUT, id)]
      = some (fsm_clear_retransmit
                (id (gnrc_tcp_send_iter_pre trivFsm 5 tcbEstablished ⟨false, 0, false⟩ 0).1),
              -ETIMEDOUT) ∧
    gnrc_tcp_recv_loop trivFsm 10 { tcbEstablished with rcvbuf_avail := 0 } 0
        [(Msg.USER_SPEC_TIMEOUT, id)]
      = some (fsm_clear_retransmit
                (id (fsm_call_recv { tcbEstablished with rcvbuf_avail := 0 } 10).1),
              -ETIMEDOUT) :=
  ⟨by decide,
   (user_timeout_clears_retransmit_and_returns.1 trivFsm 1000 60000 5 tcbEstablished
      ⟨false, 0, false⟩ 0 id [] (Or.inl rfl) (by decide)).1,
   (user_timeout_clears_retransmit_and_returns.2 trivFsm 10
      { tcbEstablished with rcvbuf_avail := 0 } id [] (by decide) (by decide) rfl).1⟩

/-- Claim C5: if an active open (`gnrc_tcp_open_active`) completes its wait
loop with the TCB in state `CLOSED` and no timeout or resource error recorded
(internal result still 0 — the SYN was answered with a RST), the call returns
`-ECONNREFUSED` and the TCB is in state `CLOSED` on return. -/
theorem open_active_refused (fsm : FsmOracle) (tcb : Tcb) (remote : GnrcTcpEp)
    (local_port : Nat) (inputs : List WaitInput) (t1 : Tcb) (tr1 : List TraceItem)
    (t2 t3 : Tcb) (r0 : Int)
    (hstate : tcb.state = FsmState.CLOSED)
    (hfam : remote.family = AF_INET6)
    (hfam2 : tcb.address_family = AF_INET6)
    (hsetup : _gnrc_tcp_open_setup tcb (some remote) none local_port false
                = some (t1, tr1))
    (hcall : fsm.callOpen t1 = (t2, r0))
    (hloop : _gnrc_tcp_open_loop fsm t2 r0 inputs = some (t3, 0))
    (hclosed : t3.state = FsmState.CLOSED) :
    (gnrc_tcp_open_active fsm tcb remote local_port inputs).1
      = some (t3, -ECONNREFUSED)
    ∧ t3.state = FsmState.CLOSED := by
  refine ⟨?_, hclosed⟩
  rw [gnrc_tcp_open_active, if_neg (by simp [hfam]), if_neg (by simp [hfam, hfam2])]
  rw [_gnrc_tcp_open, if_neg (by simp [hstate]), hsetup]
  simp only [hcall, hloop, hclosed, and_self, if_pos, true_and]

theorem open_active_refused_witness :
    tcbClosed.state = FsmState.CLOSED ∧
    (gnrc_tcp_open_active trivFsm tcbClosed epV6 4242
        [(Msg.NOTIFY_USER, fun t => { t with state := FsmState.CLOSED })]).1
      = some ({ tcbClosed with peer_addr := epV6.addr, local_port := 4242,
                               peer_port := 80, state := FsmState.CLOSED },
              -ECONNREFUSED) :=
  ⟨rfl,
   (open_active_refused trivFsm tcbClosed epV6 4242
      [(Msg.NOTIFY_USER, fun t => { t with state := FsmState.CLOSED })]
      { tcbClosed with peer_addr := epV6.addr, local_port := 4242, peer_port := 80 }
      [TraceItem.mboxBind, TraceItem.schedConnTimeout]
      { tcbClosed with peer_addr := epV6.addr, local_port := 4242, peer_port := 80,
                       state := FsmState.SYN_SENT }
      { tcbClosed with peer_addr := epV6.addr, local_port := 4242, peer_port := 80,
                       state := FsmState.CLOSED }
      0 rfl rfl rfl (by decide) (by decide) (by decide) rfl).1⟩

/-- Counterexample to claim C6 as stated: for a TCB whose state is not
`CLOSED`, `gnrc_tcp_open_active` need not return `-EISCONN` — the
address-family checks run first, so a remote endpoint with an unsupported
family makes the call return `-EAFNOSUPPORT` even though the TCB is
`ESTABLISHED`. -/
theorem open_nonclosed_eisconn_cex :
    tcbEstablished.state ≠ FsmState.CLOSED ∧
    (gnrc_tcp_open_active trivFsm tcbEstablished epBadFamily 100 []).1
      = some (tcbEstablished, -EAFNOSUPPORT) ∧
    -EAFNOSUPPORT ≠ -EISCONN := by
  refine ⟨by decide, by decide, by decide⟩

/-- Claim C6 (amended: provided the endpoint passes the address-family checks
that precede the state check — its family is `AF_INET6` and matches the TCB's
address family): for every TCB whose state is not `CLOSED`,
`gnrc_tcp_open_active` and `gnrc_tcp_open_passive` return `-EISCONN`, leave
the TCB unchanged, and perform no action at all (no FSM event is issued, no
mailbox is bound, no timer is scheduled — the action trace is empty). -/
theorem open_nonclosed_eisconn (fsm : FsmOracle) (tcb : Tcb)
    (remote localEp : GnrcTcpEp) (local_port : Nat)
    (inputsA inputsP : List WaitInput)
    (hstate : tcb.state ≠ FsmState.CLOSED)
    (hfam : remote.family = AF_INET6)
    (hfamL : localEp.family = AF_INET6)
    (hfam2 : tcb.address_family = AF_INET6) :
    gnrc_tcp_open_active fsm tcb remote local_port inputsA
      = (some (tcb, -EISCONN), [])
    ∧ gnrc_tcp_open_passive fsm tcb localEp inputsP
      = (some (tcb, -EISCONN), []) := by
  constructor
  · rw [gnrc_tcp_open_active, if_neg (by simp [hfam]),
        if_neg (by simp [hfam, hfam2]), _gnrc_tcp_open, if_pos hstate]
  · rw [gnrc_tcp_open_passive, if_neg (by simp [hfamL]),
        if_neg (by simp [hfamL, hfam2]), _gnrc_tcp_open, if_pos hstate]

theorem open_nonclosed_eisconn_witness :
    tcbEstablished.state ≠ FsmState.CLOSED ∧
    gnrc_tcp_open_active trivFsm tcbEstablished epV6 100 []
      = (some (tcbEstablished, -EISCONN), []) ∧
    gnrc_tcp_open_passive trivFsm tcbEstablished epV6 []
      = (some (tcbEstablished, -EISCONN), []) :=
  ⟨by decide,
   (open_nonclosed_eisconn trivFsm tcbEstablished epV6 epV6 100 [] []
      (by decide) rfl rfl rfl).1,
   (open_nonclosed_eisconn trivFsm tcbEstablished epV6 epV6 100 [] []
      (by decide) rfl rfl rfl).2⟩

/-! ## Lemmas about `strchrFrom`, used to relate the parser to the claim's
malformedness conditions -/

theorem strchrFrom_zero_none_iff (s : List Char) (c : Char) :
    strchrFrom s c 0 = none ↔ s.count c = 0 := by
  simp [strchrFrom, List.findIdx?_eq_none_iff, List.count_eq_zero]
  constructor
  · intro h hc
    exact absurd (h c hc) (by simp)
  · intro h x hx hxc
    exact h (hxc ▸ hx)

theorem strchrFrom_zero_some (s : List Char) (c : Char) (j : Nat)
    (h : strchrFrom s c 0 = some j) :
    ∃ hj : j < s.length, s[j] = c ∧ ∀ k (hk : k < j), s.get ⟨k, Nat.lt_trans hk hj⟩ ≠ c := by
  simp only [strchrFrom, List.drop_zero, Option.map_eq_some'] at h
  obtain ⟨j', hj', rfl⟩ := h
  rw [List.findIdx?_eq_some_iff_getElem] at hj'
  obtain ⟨hlt, hbeq, hprev⟩ := hj'
  refine ⟨by simpa using hlt, by simpa using hbeq, ?_⟩
  intro k hk
  have := hprev k (by simpa using hk)
  simpa using this

theorem strchrFrom_zero_count_ne (s : List Char) (c : Char) (j : Nat)
    (h : strchrFrom s c 0 = some j) : s.count c ≠ 0 := by
  intro hc
  rw [← strchrFrom_zero_none_iff] at hc
  rw [h] at hc
  exact Option.noConfusion hc

theorem strchrFrom_second_isSome_iff (s : List Char) (c : Char) (j : Nat)
    (h : strchrFrom s c 0 = some j) :
    (strchrFrom s c (j + 1)).isSome = true ↔ 2 ≤ s.count c := by
  obtain ⟨hj, hcj, hprev⟩ := strchrFrom_zero_some s c j h
  have hsplit : s.count c = (s.take (j + 1)).count c + (s.drop (j + 1)).count c := by
    conv_lhs => rw [← List.take_append_drop (j + 1) s]
    exact List.count_append c _ _
  have htake : (s.take (j + 1)).count c = 1 := by
    rw [List.take_succ]
    rw [List.count_append]
    have h0 : (s.take j).count c = 0 := by
      rw [List.count_eq_zero]
      intro hmem
      obtain ⟨n, hn, hne⟩ := List.getElem_of_mem hmem
      have hnj : n < j := by
        have := hn
        simp [List.length_take] at this
        omega
      have hns : n < s.length := Nat.lt_trans hnj hj
      have : s.get ⟨n, hns⟩ = c := by
        have hg : (s.take j)[n]? = s[n]? := List.getElem?_take_of_lt hnj
        rw [List.getElem?_eq_getElem hn, List.getElem?_eq_getElem hns] at hg
        have hg2 : (s.take j).get ⟨n, hn⟩ = s.get ⟨n, hns⟩ := Option.some.inj hg
        rw [← hne]
        exact hg2.symm
      exact hprev n hnj this
    rw [h0]
    rw [List.getElem?_eq_getElem hj, hcj]
    simp
  have hdrop : (strchrFrom s c (j + 1)).isSome = true ↔ 0 < (s.drop (j + 1)).count c := by
    rw [strchrFrom]
    rw [Option.isSome_map']
    rw [List.findIdx?_isSome]
    rw [List.count_pos_iff]
    rw [List.any_eq_true]
    constructor
    · rintro ⟨x, hx, hxc⟩
      exact (by simpa using hxc : x = c) ▸ hx
    · intro hmem
      exact ⟨c, hmem, by simp⟩
  rw [hdrop]
  omega

theorem strchrFrom_zero_eq_zero_iff_head (s : List Char) (c : Char) (j : Nat)
    (h : strchrFrom s c 0 = some j) : j = 0 ↔ s.head? = some c := by
  obtain ⟨hj, hcj, _⟩ := strchrFrom_zero_some s c j h
  constructor
  · rintro rfl
    rw [List.head?_eq_getElem?, List.getElem?_eq_getElem hj, hcj]
  · intro hhead
    by_contra hne
    have h0 : 0 < j := Nat.pos_of_ne_zero hne
    obtain ⟨_, _, hprev⟩ := strchrFrom_zero_some s c j h
    have h0s : 0 < s.length := Nat.lt_trans h0 hj
    have hs0 : s.get ⟨0, h0s⟩ = c := by
      rw [List.head?_eq_getElem?] at hhead
      rw [List.getElem?_eq_getElem h0s] at hhead
      exact Option.some.inj hhead
    exact hprev 0 h0 hs0

theorem strchrFrom_zero_pos (s : List Char) (c : Char) (j : Nat)
    (h : strchrFrom s c 0 = some j) (hhead : s.head? = some '[') (hc : c ≠ '[') :
    1 ≤ j := by
  by_contra hlt
  have hj0 : j = 0 := by omega
  have := (strchrFrom_zero_eq_zero_iff_head s c j h).mp hj0
  rw [hhead] at this
  exact hc (Option.some.inj this).symm

theorem atol_gt_65535_iff (l : List Char) :
    0xFFFF < atol l ↔ 65535 < digitsToNat l 0 := by
  rw [atol]
  omega

/-! ## Per-step characterization of `gnrc_tcp_ep_from_str` -/

theorem ep_from_str_addr_einval_iff (pa : List Char → Option (List Nat))
    (scratch : List Nat) (ep : GnrcTcpEp) (s : List Char) (port netif addr_end : Nat)
    (hpos : 1 ≤ addr_end) :
    ((ep_from_str_addr pa scratch ep s port netif addr_end).2 = -EINVAL
      ↔ (decide (IPV6_ADDR_MAX_STR_LEN - 1 < addr_end - 1)
          || (pa ((s.drop 1).take (addr_end - 1))).isNone) = true) := by
  simp only [ep_from_str_addr]
  have h0 : (0 : Int) ≤ (addr_end : Int) - (0 + 1) := by omega
  have htoNat : ((addr_end : Int) - (0 + 1)).toNat = addr_end - 1 := by omega
  by_cases hlen : ((addr_end : Int) - (0 + 1)) < (IPV6_ADDR_MAX_STR_LEN : Int)
  · rw [if_pos ⟨h0, hlen⟩, htoNat]
    have hlen' : ¬ (IPV6_ADDR_MAX_STR_LEN - 1 < addr_end - 1) := by
      simp only [IPV6_ADDR_MAX_STR_LEN] at hlen ⊢
      omega
    cases hpa : pa ((s.drop 1).take (addr_end - 1)) with
    | none => simp [hpa, hlen', EINVAL]
    | some a => simp [hpa, hlen', EINVAL]
  · rw [if_neg (by tauto)]
    have hlen' : IPV6_ADDR_MAX_STR_LEN - 1 < addr_end - 1 := by
      simp only [IPV6_ADDR_MAX_STR_LEN] at hlen ⊢
      omega
    simp [hlen', EINVAL]

theorem ep_from_str_addr_ret (pa : List Char → Option (List Nat))
    (scratch : List Nat) (ep : GnrcTcpEp) (s : List Char) (port netif addr_end : Nat) :
    (ep_from_str_addr pa scratch ep s port netif addr_end).2 = -EINVAL
    ∨ (ep_from_str_addr pa scratch ep s port netif addr_end).2 = 0 := by
  simp only [ep_from_str_addr]
  split_ifs
  · cases hpa : pa ((s.drop 1).take ((addr_end : Int) - (0 + 1)).toNat) <;> simp [hpa]
  · simp

theorem ep_from_str_addr_frame (pa : List Char → Option (List Nat))
    (scratch : List Nat) (ep : GnrcTcpEp) (s : List Char) (port netif addr_end : Nat)
    (h : (ep_from_str_addr pa scratch ep s port netif addr_end).2 = -EINVAL) :
    (ep_from_str_addr pa scratch ep s port netif addr_end).1.family = ep.family
    ∧ (ep_from_str_addr pa scratch ep s port netif addr_end).1.port = ep.port
    ∧ (ep_from_str_addr pa scratch ep s port netif addr_end).1.netif = ep.netif := by
  simp only [ep_from_str_addr] at h ⊢
  split_ifs at h ⊢
  · cases hpa : pa ((s.drop 1).take ((addr_end : Int) - (0 + 1)).toNat) with
    | none => simp [hpa]
    | some a =>
      rw [hpa] at h
      simp [EINVAL] at h
  · simp

theorem ep_from_str_netif_einval_iff (pa : List Char → Option (List Nat))
    (scratch : List Nat) (ep : GnrcTcpEp) (s : List Char) (ae port : Nat)
    (hhead : s.head? = some '[') (hae : 1 ≤ ae) :
    ((ep_from_str_netif pa scratch ep s ae port).2 = -EINVAL
      ↔ (specNetifBad s ae || specAddrBad pa s ae) = true) := by
  simp only [ep_from_str_netif, specNetifBad, specAddrBad]
  cases hq : strchrFrom s '%' 0 with
  | none =>
    simp only [hq]
    rw [ep_from_str_addr_einval_iff pa scratch ep s port 0 ae hae]
    simp
  | some q =>
    have hq1 : 1 ≤ q := strchrFrom_zero_pos s '%' q hq hhead (by decide)
    simp only [hq]
    by_cases h41 : ae ≤ q + 1
    · simp [h41, EINVAL]
    · rw [if_neg h41]
      by_cases h42 : (((s.drop (q + 1)).take (ae - (q + 1))).all isDigitCh) = false
      · simp [h42, EINVAL]
      · rw [if_neg h42]
        rw [ep_from_str_addr_einval_iff pa scratch ep s port (atol (s.drop (q + 1))) q hq1]
        simp [h42, h41]

theorem ep_from_str_netif_ret (pa : List Char → Option (List Nat))
    (scratch : List Nat) (ep : GnrcTcpEp) (s : List Char) (ae port : Nat) :
    (ep_from_str_netif pa scratch ep s ae port).2 = -EINVAL
    ∨ (ep_from_str_netif pa scratch ep s ae port).2 = 0 := by
  simp only [ep_from_str_netif]
  cases hq : strchrFrom s '%' 0 with
  | none => exact ep_from_str_addr_ret pa scratch ep s port 0 ae
  | some q =>
    by_cases h1 : ae ≤ q + 1
    · simp [h1]
    · by_cases h2 : (((s.drop (q + 1)).take (ae - (q + 1))).all isDigitCh) = false
      · simp [h1, h2]
      · simpa [h1, h2] using
          ep_from_str_addr_ret pa scratch ep s port (atol (s.drop (q + 1))) q

theorem ep_from_str_netif_frame (pa : List Char → Option (List Nat))
    (scratch : List Nat) (ep : GnrcTcpEp) (s : List Char) (ae port : Nat)
    (h : (ep_from_str_netif pa scratch ep s ae port).2 = -EINVAL) :
    (ep_from_str_netif pa scratch ep s ae port).1.family = ep.family
    ∧ (ep_from_str_netif pa scratch ep s ae port).1.port = ep.port
    ∧ (ep_from_str_netif pa scratch ep s ae port).1.netif = ep.netif := by
  rcases hq : strchrFrom s '%' 0 with _ | q
  · have h' : (ep_from_str_addr pa scratch ep s port 0 ae).2 = -EINVAL := by
      simpa [ep_from_str_netif, hq] using h
    simpa [ep_from_str_netif, hq] using
      ep_from_str_addr_frame pa scratch ep s port 0 ae h'
  · by_cases h1 : ae ≤ q + 1
    · simp [ep_from_str_netif, hq, h1]
    · by_cases h2 : (((s.drop (q + 1)).take (ae - (q + 1))).all isDigitCh) = false
      · simp [ep_from_str_netif, hq, h1, h2]
      · have h' : (ep_from_str_addr pa scratch ep s port (atol (s.drop (q + 1))) q).2
            = -EINVAL := by
          simpa [ep_from_str_netif, hq, h1, h2] using h
        simpa [ep_from_str_netif, hq, h1, h2] using
          ep_from_str_addr_frame pa scratch ep s port (atol (s.drop (q + 1))) q h'

theorem ep_from_str_port_einval_iff (pa : List Char → Option (List Nat))
    (scratch : List Nat) (ep : GnrcTcpEp) (s : List Char) (ae : Nat)
    (hhead : s.head? = some '[') (hae : 1 ≤ ae) :
    ((ep_from_str_port pa scratch ep s ae).2 = -EINVAL
      ↔ (specPortBad s ae || specNetifBad s ae || specAddrBad pa s ae) = true) := by
  simp only [ep_from_str_port, specPortBad]
  cases hp : strchrFrom s ':' ae with
  | none =>
    simp only [hp]
    rw [ep_from_str_netif_einval_iff pa scratch ep s ae 0 hhead hae]
    simp
  | some p =>
    simp only [hp]
    by_cases h31 : p + 1 = s.length
    · simp [h31, EINVAL]
    · rw [if_neg h31]
      by_cases h32 : ((s.drop (p + 1)).all isDigitCh) = false
      · simp [h31, h32, EINVAL]
      · rw [if_neg h32]
        by_cases h33 : 0xFFFF < atol (s.drop (p + 1))
        · have h33' : 65535 < digitsToNat (s.drop (p + 1)) 0 :=
            (atol_gt_65535_iff (s.drop (p + 1))).mp h33
          simp [h33, h33', EINVAL]
        · have h33' : ¬ 65535 < digitsToNat (s.drop (p + 1)) 0 := by
            intro hgt
            exact h33 ((atol_gt_65535_iff (s.drop (p + 1))).mpr hgt)
          rw [if_neg h33]
          rw [ep_from_str_netif_einval_iff pa scratch ep s ae (atol (s.drop (p + 1)))
                hhead hae]
          simp [h31, h32, h33']

theorem ep_from_str_port_ret (pa : List Char → Option (List Nat))
    (scratch : List Nat) (ep : GnrcTcpEp) (s : List Char) (ae : Nat) :
    (ep_from_str_port pa scratch ep s ae).2 = -EINVAL
    ∨ (ep_from_str_port pa scratch ep s ae).2 = 0 := by
  rcases hp : strchrFrom s ':' ae with _ | p
  · simpa [ep_from_str_port, hp] using ep_from_str_netif_ret pa scratch ep s ae 0
  · by_cases h31 : p + 1 = s.length
    · simp [ep_from_str_port, hp, h31]
    · by_cases h32 : ((s.drop (p + 1)).all isDigitCh) = false
      · simp [ep_from_str_port, hp, h31, h32]
      · by_cases h33 : 0xFFFF < atol (s.drop (p + 1))
        · simp [ep_from_str_port, hp, h31, h32, h33]
        · simpa [ep_from_str_port, hp, h31, h32, h33] using
            ep_from_str_netif_ret pa scratch ep s ae (atol (s.drop (p + 1)))

theorem ep_from_str_port_frame (pa : List Char → Option (List Nat))
    (scratch : List Nat) (ep : GnrcTcpEp) (s : List Char) (ae : Nat)
    (h : (ep_from_str_port pa scratch ep s ae).2 = -EINVAL) :
    (ep_from_str_port pa scratch ep s ae).1.family = ep.family
    ∧ (ep_from_str_port pa scratch ep s ae).1.port = ep.port
    ∧ (ep_from_str_port pa scratch ep s ae).1.netif = ep.netif := by
  rcases hp : strchrFrom s ':' ae with _ | p
  · have h' : (ep_from_str_netif pa scratch ep s ae 0).2 = -EINVAL := by
      simpa [ep_from_str_port, hp] using h
    simpa [ep_from_str_port, hp] using ep_from_str_netif_frame pa scratch ep s ae 0 h'
  · by_cases h31 : p + 1 = s.length
    · simp [ep_from_str_port, hp, h31]
    · by_cases h32 : ((s.drop (p + 1)).all isDigitCh) = false
      · simp [ep_from_str_port, hp, h31, h32]
      · by_cases h33 : 0xFFFF < atol (s.drop (p + 1))
        · simp [ep_from_str_port, hp, h31, h32, h33]
        · have h' : (ep_from_str_netif pa scratch ep s ae (atol (s.drop (p + 1)))).2
              = -EINVAL := by
            simpa [ep_from_str_port, hp, h31, h32, h33] using h
          simpa [ep_from_str_port, hp, h31, h32, h33] using
            ep_from_str_netif_frame pa scratch ep s ae (atol (s.drop (p + 1))) h'

theorem gnrc_tcp_ep_from_str_ret (pa : List Char → Option (List Nat))
    (scratch : List Nat) (ep : GnrcTcpEp) (s : List Char) :
    (gnrc_tcp_ep_from_str pa scratch ep s).2 = -EINVAL
    ∨ (gnrc_tcp_ep_from_str pa scratch ep s).2 = 0 := by
  rcases h1 : strchrFrom s '[' 0 with _ | ab
  · simp [gnrc_tcp_ep_from_str, h1]
  rcases h2 : strchrFrom s ']' 0 with _ | ae
  · simp [gnrc_tcp_ep_from_str, h1, h2]
  by_cases hdup : ((strchrFrom s '[' (ab + 1)).isSome
      || (strchrFrom s ']' (ae + 1)).isSome) = true
  · simp [gnrc_tcp_ep_from_str, h1, h2, hdup]
  · by_cases hab : ab ≠ 0
    · simp [gnrc_tcp_ep_from_str, h1, h2, hdup, hab]
    · simpa [gnrc_tcp_ep_from_str, h1, h2, hdup, hab] using
        ep_from_str_port_ret pa scratch ep s ae

/-- Claim C3: `gnrc_tcp_ep_from_str` returns `-EINVAL` exactly when the input
string is malformed in the sense of `epStrMalformed` (no `'['` or no `']'`;
not beginning with `'['`; a second `'['` or `']'`; a `':'` after the `']'`
followed by nothing or by a non-decimal character; a decimal port value
greater than 65535; a `'%'` whose interface field is empty or non-decimal or
lies outside the brackets; an address part longer than
`IPV6_ADDR_MAX_STR_LEN - 1` or that does not parse as an IPv6 address), and
returns 0 exactly otherwise. -/
theorem ep_from_str_einval_iff_malformed (pa : List Char → Option (List Nat))
    (scratch : List Nat) (ep : GnrcTcpEp) (s : List Char) :
    ((gnrc_tcp_ep_from_str pa scratch ep s).2 = -EINVAL
      ↔ epStrMalformed pa s = true)
    ∧ ((gnrc_tcp_ep_from_str pa scratch ep s).2 = 0
      ↔ epStrMalformed pa s = false) := by
  have hmain : (gnrc_tcp_ep_from_str pa scratch ep s).2 = -EINVAL
      ↔ epStrMalformed pa s = true := by
    rcases h1 : strchrFrom s '[' 0 with _ | ab
    · have hc : s.count '[' = 0 := (strchrFrom_zero_none_iff s '[').mp h1
      simp [gnrc_tcp_ep_from_str, h1, epStrMalformed, hc]
    rcases h2 : strchrFrom s ']' 0 with _ | ae
    · have hc : s.count ']' = 0 := (strchrFrom_zero_none_iff s ']').mp h2
      simp [gnrc_tcp_ep_from_str, h1, h2, epStrMalformed, hc]
    have hc1 : s.count '[' ≠ 0 := strchrFrom_zero_count_ne s '[' ab h1
    have hc2 : s.count ']' ≠ 0 := strchrFrom_zero_count_ne s ']' ae h2
    have hsec1 := strchrFrom_second_isSome_iff s '[' ab h1
    have hsec2 := strchrFrom_second_isSome_iff s ']' ae h2
    by_cases hdup : ((strchrFrom s '[' (ab + 1)).isSome
        || (strchrFrom s ']' (ae + 1)).isSome) = true
    · rcases (by simpa using hdup :
          (strchrFrom s '[' (ab + 1)).isSome = true
          ∨ (strchrFrom s ']' (ae + 1)).isSome = true) with hl | hr
      · have hcnt : 2 ≤ s.count '[' := hsec1.mp hl
        simp [gnrc_tcp_ep_from_str, h1, h2, hdup, epStrMalformed, hcnt]
      · have hcnt : 2 ≤ s.count ']' := hsec2.mp hr
        simp [gnrc_tcp_ep_from_str, h1, h2, hdup, epStrMalformed, hcnt]
    · have hdup' : ¬ (strchrFrom s '[' (ab + 1)).isSome = true
          ∧ ¬ (strchrFrom s ']' (ae + 1)).isSome = true := by
        constructor <;> intro hx <;> simp [hx] at hdup
      have hn1 : ¬ 2 ≤ s.count '[' := fun hc => hdup'.1 (hsec1.mpr hc)
      have hn2 : ¬ 2 ≤ s.count ']' := fun hc => hdup'.2 (hsec2.mpr hc)
      by_cases hab : ab = 0
      · have hhead : s.head? = some '[' :=
          (strchrFrom_zero_eq_zero_iff_head s '[' ab h1).mp hab
        have hae1 : 1 ≤ ae := strchrFrom_zero_pos s ']' ae h2 hhead (by decide)
        have hport := ep_from_str_port_einval_iff pa scratch ep s ae hhead hae1
        have hcode : (gnrc_tcp_ep_from_str pa scratch ep s).2
            = (ep_from_str_port pa scratch ep s ae).2 := by
          subst hab
          simp only [gnrc_tcp_ep_from_str, h1, h2]
          rw [if_neg (by simpa using hdup)]
          simp
        rw [hcode, hport]
        simp only [epStrMalformed, h2]
        simp [hc1, hc2, hn1, hn2, hhead]
      · have hheadne : s.head? ≠ some '[' := fun hh =>
          hab ((strchrFrom_zero_eq_zero_iff_head s '[' ab h1).mpr hh)
        simp [gnrc_tcp_ep_from_str, h1, h2, hdup, hab, epStrMalformed, hheadne]
  refine ⟨hmain, ?_⟩
  rcases gnrc_tcp_ep_from_str_ret pa scratch ep s with hr | hr
  · rw [hr] at hmain ⊢
    have hm : epStrMalformed pa s = true := hmain.mp rfl
    simp [hm, EINVAL]
  · rw [hr] at hmain ⊢
    have hm : epStrMalformed pa s = false := by
      cases hx : epStrMalformed pa s
      · rfl
      · have h0 : (0 : Int) = -EINVAL := hmain.mpr hx
        simp [EINVAL] at h0
    simp [hm]

/-- Claim C10: `gnrc_tcp_ep_from_str` writes the endpoint's `family`, `port`
and `netif` fields only on the success path: whenever it returns `-EINVAL`,
those three fields hold the values they held before the call (only the
address bytes may have been scribbled on by the failed address parse). -/
theorem ep_from_str_frame_on_error (pa : List Char → Option (List Nat))
    (scratch : List Nat) (ep : GnrcTcpEp) (s : List Char)
    (h : (gnrc_tcp_ep_from_str pa scratch ep s).2 = -EINVAL) :
    (gnrc_tcp_ep_from_str pa scratch ep s).1.family = ep.family
    ∧ (gnrc_tcp_ep_from_str pa scratch ep s).1.port = ep.port
    ∧ (gnrc_tcp_ep_from_str pa scratch ep s).1.netif = ep.netif := by
  rcases h1 : strchrFrom s '[' 0 with _ | ab
  · simp [gnrc_tcp_ep_from_str, h1]
  rcases h2 : strchrFrom s ']' 0 with _ | ae
  · simp [gnrc_tcp_ep_from_str, h1, h2]
  by_cases hdup : ((strchrFrom s '[' (ab + 1)).isSome
      || (strchrFrom s ']' (ae + 1)).isSome) = true
  · simp [gnrc_tcp_ep_from_str, h1, h2, hdup]
  · by_cases hab : ab ≠ 0
    · simp [gnrc_tcp_ep_from_str, h1, h2, hdup, hab]
    · have h' : (ep_from_str_port pa scratch ep s ae).2 = -EINVAL := by
        simpa [gnrc_tcp_ep_from_str, h1, h2, hdup, hab] using h
      simpa [gnrc_tcp_ep_from_str, h1, h2, hdup, hab] using
        ep_from_str_port_frame pa scratch ep s ae h'

theorem ep_from_str_frame_on_error_witness :
    (gnrc_tcp_ep_from_str (fun _ => none) [42] ⟨5, [7], 9, 11⟩ ['[', ']']).2 = -EINVAL
    ∧ (gnrc_tcp_ep_from_str (fun _ => none) [42] ⟨5, [7], 9, 11⟩ ['[', ']']).1.family = 5
    ∧ (gnrc_tcp_ep_from_str (fun _ => none) [42] ⟨5, [7], 9, 11⟩ ['[', ']']).1.port = 9
    ∧ (gnrc_tcp_ep_from_str (fun _ => none) [42] ⟨5, [7], 9, 11⟩ ['[', ']']).1.netif = 11 :=
  ⟨by decide,
   (ep_from_str_frame_on_error (fun _ => none) [42] ⟨5, [7], 9, 11⟩ ['[', ']']
      (by decide))⟩
